import Mathlib

/-!
Shallow embedding of the core of sbz-switch (a Rust tool driving the
Creative SoundCore COM API), translated from the repository sources:

* src/hresult.rs     — HRESULT checking (Win32Error, check)
* src/ctsndcr.rs     — the hand-rolled ICallback COM object (Callback<C>)
* src/com.rs         — ComObject clone/drop reference counting
* src/soundcore/feature_iterator.rs, parameter_iterator.rs — enumeration cursors
* src/soundcore/parameter.rs — typed parameter get/set and value conversion
* src/soundcore/event.rs — the notification bridge (SoundCoreEvents)

Modelling conventions:
* HRESULT is Int (i32 values; failures are the usual negative constants).
* u32 fields are Nat (all operations here stay below 2^32 except where an
  explicit % 2^32 appears); i32 values are Int with explicit two's-complement
  conversion where the source transmutes.
* f32 values are represented by their 32-bit IEEE-754 bit patterns: the
  source only ever moves them with mem::transmute / f32::from_bits, both of
  which are bit-level identities.
* Raw pointers are represented by Nat addresses (0 is the null pointer);
  the heap cell behind a pointer is passed and returned explicitly.
* Rust strings built from NUL-terminated byte buffers are modelled as the
  byte list up to the first zero (the utf8 decoding step is a bijection on
  the byte sequences that occur and is elided).
* COM calls into the driver are oracles: functions from the call arguments
  to the HRESULT and the data the driver writes through out-pointers.
-/

namespace SbzSwitch

/-- Win32Error from src/hresult.rs: wraps the original HRESULT value. -/
structure Win32Error where
  code : Int
deriving DecidableEq, Repr

/-- winerror constant E_FAIL = 0x80004005 as an i32. -/
def E_FAIL : Int := -2147467259

/-- winerror constant E_ABORT = 0x80004004 as an i32. -/
def E_ABORT : Int := -2147467260

/-- winerror constant E_ACCESSDENIED = 0x80070005 as an i32. -/
def E_ACCESSDENIED : Int := -2147024891

/-- winerror constant E_INVALIDARG = 0x80070057 as an i32. -/
def E_INVALIDARG : Int := -2147024809

/-- winerror constant E_NOINTERFACE = 0x80004002 as an i32. -/
def E_NOINTERFACE : Int := -2147467262

/-- check from src/hresult.rs: converts an HRESULT to a Result, negative
values being errors. -/
def check (result : Int) : Except Win32Error Int :=
  if result < 0 then .error ⟨result⟩ else .ok result

/-- A COM interface identifier (GUID): data1/data2/data3 plus the 8 tail
bytes, as written in the RIDL! uuid(...) attributes of src/ctsndcr.rs. -/
structure Guid where
  data1 : Nat
  data2 : Nat
  data3 : Nat
  data4 : List Nat
deriving DecidableEq, Repr

/-- IID of IUnknown (00000000-0000-0000-C000-000000000046). -/
def IID_IUnknown : Guid := ⟨0, 0, 0, [0xc0, 0, 0, 0, 0, 0, 0, 0x46]⟩

/-- IID of ICallback from the RIDL! block in src/ctsndcr.rs
(b353c442-c49d-4532-9e3a-1b20a182fd00). -/
def IID_ICallback : Guid :=
  ⟨0xb353c442, 0xc49d, 0x4532, [0x9e, 0x3a, 0x1b, 0x20, 0xa1, 0x82, 0xfd, 0x00]⟩

/-- IsEqualIID from winapi: structural equality of GUIDs. -/
def IsEqualIID (a b : Guid) : Bool := a = b

/-- EventInfo from src/ctsndcr.rs: the raw notification record. -/
structure EventInfo where
  event : Nat
  data_or_feature_id : Nat
  param_id : Nat
deriving DecidableEq, Repr

/-! ## The Callback<C> heap object (src/ctsndcr.rs 173-314)

The heap allocation behind an ICallback pointer holds a vtable pointer, a
vtable, an atomic reference count, and the wrapped sink.  The model keeps
the observable part of that cell: the counter, how many times the sink's
destructor has run (drop_in_place at line 290), and whether the allocation
has been freed (alloc::dealloc at line 291).  The vtable self-pointer check
performed by validate (lines 219-233) is modelled by the Bool argument
valid: true when the pointer refers to a live cell produced by
ICallback::new (whose stored QueryInterface pointer therefore matches),
false for anything validate rejects. -/

/-- The mutable state of one Callback<C> allocation. -/
structure CallbackObj where
  refs : Nat
  sinkDropped : Nat
  freed : Bool
deriving DecidableEq, Repr

/-- ICallback::new (src/ctsndcr.rs 196-215): the freshly boxed Callback<C>
starts with its atomic count at 1, sink alive, allocation live. -/
def ICallback.new : CallbackObj :=
  { refs := 1, sinkDropped := 0, freed := false }

/-- callback_add_ref (src/ctsndcr.rs 268-279): on a validated pointer,
fetch_add 1 and return the incremented count; on a pointer validate
rejects, return the harmless value 1 and touch nothing. -/
def callback_add_ref (valid : Bool) (o : CallbackObj) : Nat × CallbackObj :=
  if valid then
    (o.refs + 1, { o with refs := o.refs + 1 })
  else
    (1, o)

/-- callback_release (src/ctsndcr.rs 281-300): on a validated pointer,
fetch_sub 1; if the post-decrement count is zero, drop the sink in place
and deallocate, then return the count; on a rejected pointer return 1. -/
def callback_release (valid : Bool) (o : CallbackObj) : Nat × CallbackObj :=
  if valid then
    let count := o.refs - 1
    if count = 0 then
      (0, { refs := 0, sinkDropped := o.sinkDropped + 1, freed := true })
    else
      (count, { o with refs := count })
  else
    (1, o)

/-- callback_query_interface (src/ctsndcr.rs 246-266): on a validated
pointer, compare the requested IID against IUnknown and ICallback; on a
match, increment the count, write the object's own address to the out slot
and return S_OK; otherwise write null and return E_NOINTERFACE.  A pointer
validate rejects yields E_INVALIDARG (via uncheck) with the slot untouched.
The result is (HRESULT, slot write, updated cell); the slot write is none
when *object is never assigned, some a when the address a is stored (0 for
the null pointer). -/
def callback_query_interface (valid : Bool) (thisAddr : Nat) (iid : Guid)
    (o : CallbackObj) : Int × Option Nat × CallbackObj :=
  if valid then
    if IsEqualIID iid IID_IUnknown || IsEqualIID iid IID_ICallback then
      (0, some thisAddr, { o with refs := o.refs + 1 })
    else
      (E_NOINTERFACE, some 0, o)
  else
    (E_INVALIDARG, none, o)

/-- Outcome of the wrapped sink: the Rust closure returns
Result<(), Win32Error>, and may in addition panic; the dispatch code in
src/ctsndcr.rs contains no catch_unwind, so the panic case must be kept
visible in the model. -/
inductive SinkResult where
  | ok
  | err (e : Win32Error)
  | panics
deriving DecidableEq, Repr

/-- Outcome of a COM method dispatch at the binary boundary: either an
HRESULT is returned, or a panic unwinds out of the extern fn. -/
inductive DispatchOutcome where
  | ret (hr : Int)
  | panicked
deriving DecidableEq, Repr

/-- callback_event_callback (src/ctsndcr.rs 302-314): validate, invoke the
sink with the delivered payload, and return 0 on success; a sink error is
converted by uncheck (lines 236-244) to the error's own code; a rejected
pointer yields E_INVALIDARG.  There is no catch_unwind, so a sink panic
unwinds across the boundary. -/
def callback_event_callback (valid : Bool) (sink : EventInfo → SinkResult)
    (event_info : EventInfo) : DispatchOutcome :=
  if valid then
    match sink event_info with
    | .ok => .ret 0
    | .err e => .ret e.code
    | .panics => .panicked
  else
    .ret E_INVALIDARG

/-- The one sink the program ever wraps (src/soundcore/event.rs 144-150):
send the event into the channel; on success notify the task and succeed,
on a send error (receiver dropped) fail with E_ABORT. -/
def eventChannelSink (receiverDropped : Bool) (_e : EventInfo) : SinkResult :=
  if receiverDropped then .err ⟨E_ABORT⟩ else .ok

/-- A sink that fails with E_INVALIDARG, a code different from E_ABORT. -/
def invalidArgSink (_e : EventInfo) : SinkResult := .err ⟨E_INVALIDARG⟩

/-- A sink that panics when invoked. -/
def panickingSink (_e : EventInfo) : SinkResult := .panics

/-! ## Driver data records (src/ctsndcr.rs 92-146) -/

/-- FeatureInfo from src/ctsndcr.rs: feature id, NUL-padded description
buffer ([u8; 32]) and version buffer ([u8; 16]). -/
structure FeatureInfo where
  feature_id : Nat
  description : List Nat
  version : List Nat
deriving DecidableEq, Repr

/-- The mem::zeroed() FeatureInfo the iterators start from. -/
def FeatureInfo.zeroed : FeatureInfo :=
  { feature_id := 0, description := List.replicate 32 0, version := List.replicate 16 0 }

/-- Param from src/ctsndcr.rs: addresses one parameter of one feature. -/
structure Param where
  param : Nat
  feature : Nat
  context : Nat
deriving DecidableEq, Repr

/-- ParamValue from src/ctsndcr.rs: 4-byte kind tag plus 4-byte payload. -/
structure ParamValue where
  kind : Nat
  value : Nat
deriving DecidableEq, Repr

/-- An all-zero ParamValue. -/
def ParamValue.zeroed : ParamValue := { kind := 0, value := 0 }

/-- ParamInfo from src/ctsndcr.rs. -/
structure ParamInfo where
  param : Param
  param_type : Nat
  data_size : Nat
  min_value : ParamValue
  max_value : ParamValue
  step_size : ParamValue
  default_value : ParamValue
  param_attributes : Nat
  description : List Nat
deriving DecidableEq, Repr

/-- The mem::zeroed() ParamInfo the parameter iterator starts from. -/
def ParamInfo.zeroed : ParamInfo :=
  { param := ⟨0, 0, 0⟩, param_type := 0, data_size := 0,
    min_value := .zeroed, max_value := .zeroed, step_size := .zeroed,
    default_value := .zeroed, param_attributes := 0,
    description := List.replicate 32 0 }

/-- The byte prefix before the first NUL: the description/version buffers
are turned into strings by str::from_utf8(&buf[0..first_zero]). -/
def cString (bytes : List Nat) : List Nat := bytes.takeWhile (fun b => b != 0)

/-! ## SoundCoreParamValue and value conversion (src/soundcore/parameter.rs) -/

/-- SoundCoreParamValue from src/soundcore/parameter.rs 13-24.  The float
payload is carried as its 32-bit IEEE-754 bit pattern (the source moves it
only through mem::transmute and f32::from_bits, both bit identities). -/
inductive SoundCoreParamValue where
  | float (bits : Nat)
  | bool (b : Bool)
  | u32 (u : Nat)
  | i32 (i : Int)
  | none
deriving DecidableEq, Repr

/-- convert_param_value (src/soundcore/parameter.rs 187-197): decode a
wire ParamValue by its kind tag; kind 3 reinterprets the u32 payload as a
two's-complement i32; unknown kinds decode to None. -/
def convert_param_value (value : ParamValue) : SoundCoreParamValue :=
  match value.kind with
  | 0 => .float value.value
  | 1 => .bool (value.value != 0)
  | 2 => .u32 value.value
  | 3 => .i32 (if value.value < 2 ^ 31 then (value.value : Int)
               else (value.value : Int) - 2 ^ 32)
  | _ => .none

/-! ## SoundCoreFeature and SoundCoreParameter (construction) -/

/-- SoundCoreFeature from src/soundcore/feature.rs (the core pointer and
logger fields carry no observable data and are dropped). -/
structure SoundCoreFeature where
  context : Nat
  id : Nat
  description : List Nat
  version : List Nat
deriving DecidableEq, Repr

/-- SoundCoreFeature::new (src/soundcore/feature.rs 25-57): take the id
and the NUL-terminated description/version prefixes from the FeatureInfo
(and AddRef the root handle, not part of this record). -/
def SoundCoreFeature.new (context : Nat) (info : FeatureInfo) : SoundCoreFeature :=
  { context := context, id := info.feature_id,
    description := cString info.description, version := cString info.version }

/-- SoundCoreParameter from src/soundcore/parameter.rs 28-50 (again minus
the core pointer and logger). -/
structure SoundCoreParameter where
  context : Nat
  feature_id : Nat
  feature_description : List Nat
  id : Nat
  kind : Nat
  size : Option Nat
  min_value : SoundCoreParamValue
  max_value : SoundCoreParamValue
  step_size : SoundCoreParamValue
  attributes : Nat
  description : List Nat
deriving DecidableEq, Repr

/-- SoundCoreParameter::new (src/soundcore/parameter.rs 53-88): unpack the
ParamInfo; size is kept only for the variable-size kind 5; min/max/step go
through convert_param_value. -/
def SoundCoreParameter.new (feature_description : List Nat) (info : ParamInfo) :
    SoundCoreParameter :=
  { context := info.param.context,
    feature_id := info.param.feature,
    feature_description := feature_description,
    id := info.param.param,
    kind := info.param_type,
    size := match info.param_type with
            | 5 => some info.data_size
            | _ => Option.none,
    min_value := convert_param_value info.min_value,
    max_value := convert_param_value info.max_value,
    step_size := convert_param_value info.step_size,
    attributes := info.param_attributes,
    description := cString info.description }

/-! ## Enumeration cursors
(src/soundcore/feature_iterator.rs, src/soundcore/parameter_iterator.rs)

The ISoundCore target is modelled as an oracle mapping the probe arguments
to the returned HRESULT and the record the driver writes. -/

/-- The EnumFeatures COM call: (context, index) to HRESULT and out-record. -/
abbrev EnumFeatures := Nat → Nat → Int × FeatureInfo

/-- The EnumParams COM call: (context, index, feature) to HRESULT and
out-record. -/
abbrev EnumParams := Nat → Nat → Nat → Int × ParamInfo

/-- The cursor state of SoundCoreFeatureIterator (pointer and logger
dropped): enumeration context and current index. -/
structure SoundCoreFeatureIterator where
  context : Nat
  index : Nat
deriving DecidableEq, Repr

/-- SoundCoreFeatureIterator::next (src/soundcore/feature_iterator.rs
38-75): probe EnumFeatures(context, index); E_FAIL marks the end of the
collection (None, index untouched); any other failure yields Some(Err)
with the index untouched; on success the index advances by 1, then a zero
feature_id ends the collection and a nonzero one yields the feature. -/
def SoundCoreFeatureIterator.next (enumFeatures : EnumFeatures)
    (it : SoundCoreFeatureIterator) :
    Option (Except Win32Error SoundCoreFeature) × SoundCoreFeatureIterator :=
  let probe := enumFeatures it.context it.index
  match check probe.1 with
  | .error e =>
      if e.code = E_FAIL then (Option.none, it)
      else (some (.error e), it)
  | .ok _ =>
      let advanced : SoundCoreFeatureIterator :=
        { it with index := it.index + 1 }
      match probe.2.feature_id with
      | 0 => (Option.none, advanced)
      | _ => (some (.ok (SoundCoreFeature.new it.context probe.2)), advanced)

/-- The cursor state of SoundCoreParameterIterator (pointer and logger
dropped). -/
structure SoundCoreParameterIterator where
  context : Nat
  feature_id : Nat
  feature_description : List Nat
  index : Nat
deriving DecidableEq, Repr

/-- SoundCoreParameterIterator::next (src/soundcore/parameter_iterator.rs
49-89): probe EnumParams(context, index, feature_id); E_FAIL ends the
collection; any other failure yields Some(Err) with the index untouched;
on success the index advances by 1, then a zero feature field ends the
collection and otherwise the parameter is yielded. -/
def SoundCoreParameterIterator.next (enumParams : EnumParams)
    (it : SoundCoreParameterIterator) :
    Option (Except Win32Error SoundCoreParameter) × SoundCoreParameterIterator :=
  let probe := enumParams it.context it.index it.feature_id
  match check probe.1 with
  | .error e =>
      if e.code = E_FAIL then (Option.none, it)
      else (some (.error e), it)
  | .ok _ =>
      let advanced : SoundCoreParameterIterator :=
        { it with index := it.index + 1 }
      match probe.2.param.feature with
      | 0 => (Option.none, advanced)
      | _ => (some (.ok (SoundCoreParameter.new it.feature_description probe.2)),
              advanced)

/-- Consume the feature cursor the way a Rust for-loop does, stopping at
None; fuel bounds the number of next() calls (an erroring cursor does not
terminate on its own). -/
def SoundCoreFeatureIterator.collect (enumFeatures : EnumFeatures) (fuel : Nat)
    (it : SoundCoreFeatureIterator) : List (Except Win32Error SoundCoreFeature) :=
  match fuel with
  | 0 => []
  | fuel + 1 =>
      match SoundCoreFeatureIterator.next enumFeatures it with
      | (Option.none, _) => []
      | (some item, advanced) =>
          item :: SoundCoreFeatureIterator.collect enumFeatures fuel advanced

/-- Consume the parameter cursor, stopping at None, with fuel. -/
def SoundCoreParameterIterator.collect (enumParams : EnumParams) (fuel : Nat)
    (it : SoundCoreParameterIterator) :
    List (Except Win32Error SoundCoreParameter) :=
  match fuel with
  | 0 => []
  | fuel + 1 =>
      match SoundCoreParameterIterator.next enumParams it with
      | (Option.none, _) => []
      | (some item, advanced) =>
          item :: SoundCoreParameterIterator.collect enumParams fuel advanced

/-- A driver stub holding a fixed feature list: indexes into the list and
answers E_FAIL past the end, as the vendor driver signals the end of an
enumeration. -/
def listEnumFeatures (items : List FeatureInfo) : EnumFeatures :=
  fun _context index =>
    match items.get? index with
    | some info => (0, info)
    | Option.none => (E_FAIL, FeatureInfo.zeroed)

/-- A driver stub holding a fixed parameter list, E_FAIL past the end. -/
def listEnumParams (items : List ParamInfo) : EnumParams :=
  fun _context index _feature =>
    match items.get? index with
    | some info => (0, info)
    | Option.none => (E_FAIL, ParamInfo.zeroed)

/-- A driver stub whose probe always fails with E_ACCESSDENIED, a failure
code different from the end-of-enumeration code E_FAIL. -/
def failingEnumFeatures : EnumFeatures :=
  fun _context _index => (E_ACCESSDENIED, FeatureInfo.zeroed)

/-- A parameter-enumeration stub always failing with E_ACCESSDENIED. -/
def failingEnumParams : EnumParams :=
  fun _context _index _feature => (E_ACCESSDENIED, ParamInfo.zeroed)

/-- A sample driver feature record with a nonzero id. -/
def sampleFeatureInfo : FeatureInfo :=
  { feature_id := 7, description := [83, 116, 101, 114, 101, 111, 0],
    version := [49, 0] }

/-- A sample driver parameter record whose feature field is nonzero. -/
def sampleParamInfo : ParamInfo :=
  { param := ⟨3, 7, 0⟩, param_type := 1, data_size := 0,
    min_value := ⟨1, 0⟩, max_value := ⟨1, 1⟩, step_size := ⟨1, 1⟩,
    default_value := ⟨1, 0⟩, param_attributes := 0,
    description := [77, 117, 116, 101, 0] }

/-! ## SoundCoreParameter::get and ::set (src/soundcore/parameter.rs) -/

/-- The GetParamValue COM call: Param to HRESULT and out-value. -/
abbrev GetParamValue := Param → Int × ParamValue

/-- SoundCoreParameter::get (src/soundcore/parameter.rs 93-137): a
variable-size parameter (kind 5) short-circuits to None without calling
the driver; otherwise GetParamValue is called once; E_ACCESSDENIED maps to
None, any other failure is surfaced, and a success is decoded with
convert_param_value.  The second component is the list of GetParamValue
invocations made, so that driver call counts are observable. -/
def SoundCoreParameter.get (getParamValue : GetParamValue)
    (p : SoundCoreParameter) :
    Except Win32Error SoundCoreParamValue × List Param :=
  if p.kind = 5 then (.ok .none, [])
  else
    let param : Param :=
      { context := p.context, feature := p.feature_id, param := p.id }
    let probe := getParamValue param
    match check probe.1 with
    | .error e =>
        if e.code = E_ACCESSDENIED then (.ok .none, [param])
        else (.error e, [param])
    | .ok _ => (.ok (convert_param_value probe.2), [param])

/-- The wire ParamValue that set() builds from a SoundCoreParamValue
(src/soundcore/parameter.rs 149-168): kind tags 0/1/2/3 for
Float/Bool/U32/I32; true is sent as 0xffff_ffff; an i32 payload is its
two's-complement u32 image; None makes set() panic ("tried to set
parameter with nothing"), modelled as Option.none. -/
def setParamValueWire : SoundCoreParamValue → Option ParamValue
  | .float bits => some { kind := 0, value := bits }
  | .bool b => some { kind := 1, value := if b then 0xffffffff else 0 }
  | .u32 u => some { kind := 2, value := u }
  | .i32 i => some { kind := 3, value := (i % 2 ^ 32).toNat }
  | .none => Option.none

/-- SoundCoreParameter::set (src/soundcore/parameter.rs 142-176): build
the wire value (panicking on a None value, modelled as Option.none) and
issue SetParamValue once. -/
def SoundCoreParameter.set (setParamValue : Param → ParamValue → Int)
    (p : SoundCoreParameter) (value : SoundCoreParamValue) :
    Option (Except Win32Error Unit) :=
  match setParamValueWire value with
  | Option.none => Option.none
  | some wire =>
      let param : Param :=
        { context := p.context, feature := p.feature_id, param := p.id }
      match check (setParamValue param wire) with
      | .error e => some (.error e)
      | .ok _ => some (.ok ())

/-! ## The notification bridge (src/soundcore/event.rs) -/

/-- SoundCoreEvent from src/soundcore/event.rs 285-297. -/
inductive SoundCoreEvent where
  | unknown (e : EventInfo)
  | paramChange (feature : SoundCoreFeature) (parameter : SoundCoreParameter)
deriving DecidableEq, Repr

/-- The Async type of futures 0.1. -/
inductive Async (α : Type) where
  | ready (value : α)
  | notReady
deriving DecidableEq, Repr

/-- The consumable state of SoundCoreEvents: the buffered deliveries of
the mpsc channel, and whether the sending half is gone (try_recv answers
Disconnected only once the buffer is drained). -/
structure SoundCoreEventsState where
  queue : List EventInfo
  disconnected : Bool
deriving DecidableEq, Repr

/-- The GetFeatureInfo COM call: (context, feature id) to HRESULT and
out-record. -/
abbrev GetFeatureInfo := Nat → Nat → Int × FeatureInfo

/-- The GetParamInfo COM call: Param to HRESULT and out-record. -/
abbrev GetParamInfo := Param → Int × ParamInfo

/-- Stream::poll for SoundCoreEvents (src/soundcore/event.rs 171-225):
try_recv; an empty connected channel is NotReady and a drained
disconnected one ends the stream; event code 2 re-queries the feature
(GetFeatureInfo with context 0) and then the parameter (GetParamInfo for
that feature/param pair) and yields ParamChange built from the fresh
records; any other event code is yielded verbatim as Unknown; a failed
re-query surfaces that error, the delivery having been consumed by
try_recv already. -/
def SoundCoreEvents.poll (getFeatureInfo : GetFeatureInfo)
    (getParamInfo : GetParamInfo) (s : SoundCoreEventsState) :
    Except Win32Error (Async (Option SoundCoreEvent)) × SoundCoreEventsState :=
  match s.queue with
  | [] =>
      if s.disconnected then (.ok (.ready Option.none), s)
      else (.ok .notReady, s)
  | e :: rest =>
      let s' : SoundCoreEventsState := { s with queue := rest }
      if e.event = 2 then
        let fprobe := getFeatureInfo 0 e.data_or_feature_id
        match check fprobe.1 with
        | .error error => (.error error, s')
        | .ok _ =>
            let feature := SoundCoreFeature.new 0 fprobe.2
            let pprobe := getParamInfo
              { param := e.param_id, feature := e.data_or_feature_id, context := 0 }
            match check pprobe.1 with
            | .error error => (.error error, s')
            | .ok _ =>
                (.ok (.ready (some (.paramChange feature
                    (SoundCoreParameter.new feature.description pprobe.2)))), s')
      else (.ok (.ready (some (.unknown e))), s')

/-- A call on the IEventNotify notification-source handle. -/
inductive NotifyCall where
  | registerEventCallback (eventMask : Nat)
  | unregisterEventCallback
deriving DecidableEq, Repr

/-- SoundCoreEvents::new (src/soundcore/event.rs 134-165): register the
callback with event mask 0xff, release the local callback reference, and
propagate a registration failure before the bridge value is built.  The
result is whether construction succeeded together with the calls issued
on the notify handle. -/
def SoundCoreEvents.new (registerHr : Int) :
    Except Win32Error Unit × List NotifyCall :=
  match check registerHr with
  | .error e => (.error e, [.registerEventCallback 0xff])
  | .ok _ => (.ok (), [.registerEventCallback 0xff])

/-- Drop for SoundCoreEvents (src/soundcore/event.rs 228-234): exactly one
UnregisterEventCallback call. -/
def SoundCoreEvents.dropNotifyCalls : List NotifyCall := [.unregisterEventCallback]

/-- poll (src/soundcore/event.rs 171-225) touches only the core handle and
the channel: it makes no call on the notify handle. -/
def SoundCoreEvents.pollNotifyCalls : List NotifyCall := []

/-- The notify-handle call trace over a full bridge lifetime: the
construction call, then — only when construction succeeded, a failed
SoundCoreEvents::new returning Err before any bridge value exists — the
polls and finally the drop of the bridge. -/
def SoundCoreEvents.lifetimeNotifyCalls (registerHr : Int) (polls : Nat) :
    List NotifyCall :=
  match SoundCoreEvents.new registerHr with
  | (.error _, calls) => calls
  | (.ok _, calls) =>
      calls ++ (List.replicate polls SoundCoreEvents.pollNotifyCalls).flatten ++
        SoundCoreEvents.dropNotifyCalls

/-! ## ComObject reference counting (src/com.rs) -/

/-- The underlying COM object as observed through its IUnknown methods:
its embedded reference count and how many times it has finalized itself
(a COM object frees itself when Release brings the count to zero). -/
structure ComTarget where
  refs : Nat
  finalized : Nat
deriving DecidableEq, Repr

/-- The foreign object's AddRef: increment the embedded count. -/
def ComTarget.addRef (o : ComTarget) : ComTarget :=
  { o with refs := o.refs + 1 }

/-- The foreign object's Release: decrement the embedded count; at zero
the object finalizes itself. -/
def ComTarget.release (o : ComTarget) : ComTarget :=
  if o.refs - 1 = 0 then { refs := 0, finalized := o.finalized + 1 }
  else { o with refs := o.refs - 1 }

/-- One ComObject handle operation: Clone issues exactly one AddRef on the
shared pointer (src/com.rs 83-97), Drop issues exactly one Release
(src/com.rs 108-117). -/
inductive ComObjectOp where
  | clone
  | drop
deriving DecidableEq, Repr

/-- Apply one handle operation to the underlying object. -/
def ComObject.applyOp (op : ComObjectOp) (o : ComTarget) : ComTarget :=
  match op with
  | .clone => o.addRef
  | .drop => o.release

/-- Apply a finite sequence of clone/drop operations in order. -/
def ComObject.applyOps (ops : List ComObjectOp) (o : ComTarget) : ComTarget :=
  ops.foldl (fun o op => ComObject.applyOp op o) o

/-- Number of clone operations in a sequence. -/
def ComObject.clones : List ComObjectOp → Nat
  | [] => 0
  | .clone :: rest => ComObject.clones rest + 1
  | .drop :: rest => ComObject.clones rest

/-- Number of drop (release) operations in a sequence. -/
def ComObject.drops : List ComObjectOp → Nat
  | [] => 0
  | .clone :: rest => ComObject.drops rest
  | .drop :: rest => ComObject.drops rest + 1

end SbzSwitch

namespace SbzSwitch

/-- C1: On a valid CallbackObject (ICallback::new starts the count at 1),
add-reference followed by release returns the reference count to its value
before the pair and frees nothing; a release whose post-decrement count is
zero runs the sink's destructor and frees the allocation exactly once; and
a release returning a nonzero count neither drops the sink nor frees. -/
theorem C1_addref_release_pairing (o : CallbackObj) (h : 1 ≤ o.refs) :
    ICallback.new.refs = 1 ∧
    (callback_release true (callback_add_ref true o).2).1 = o.refs ∧
    (callback_release true (callback_add_ref true o).2).2.refs = o.refs ∧
    (callback_release true (callback_add_ref true o).2).2.sinkDropped = o.sinkDropped ∧
    (callback_release true (callback_add_ref true o).2).2.freed = o.freed ∧
    ((callback_release true o).1 = 0 →
      (callback_release true o).2.sinkDropped = o.sinkDropped + 1 ∧
      (callback_release true o).2.freed = true) ∧
    ((callback_release true o).1 ≠ 0 →
      (callback_release true o).2.sinkDropped = o.sinkDropped ∧
      (callback_release true o).2.freed = o.freed) := by
  have h1 : ¬ (o.refs + 1 - 1 = 0) := by omega
  have h2 : ¬ (o.refs = 0) := by omega
  by_cases hc : o.refs - 1 = 0 <;>
    simp [ICallback.new, callback_add_ref, callback_release, h1, h2, hc]

/-- C1 witness: instantiated at a live object with count 2. -/
theorem C1_addref_release_pairing_witness :
    1 ≤ (2 : Nat) ∧
    ((callback_release true ⟨2, 0, false⟩).1 ≠ 0 →
      (callback_release true ⟨2, 0, false⟩).2.sinkDropped = 0 ∧
      (callback_release true ⟨2, 0, false⟩).2.freed = false) := by
  have h := C1_addref_release_pairing ⟨2, 0, false⟩ (by decide)
  exact ⟨by decide, h.2.2.2.2.2.2⟩

/-- C2 counterexample: the claim says a sink failure makes the domain
method return the single generic aborted code and that a panic in the sink
is caught.  On the code, a sink failing with E_INVALIDARG makes
callback_event_callback return E_INVALIDARG (uncheck returns the error's
own code, src/ctsndcr.rs 236-244), which differs from E_ABORT; and a sink
panic propagates out of the method, there being no catch_unwind. -/
theorem C2_event_callback_counterexample :
    callback_event_callback true invalidArgSink ⟨2, 1, 1⟩ = .ret E_INVALIDARG ∧
    E_INVALIDARG ≠ E_ABORT ∧
    callback_event_callback true panickingSink ⟨2, 1, 1⟩ = .panicked := by
  exact ⟨rfl, by decide, rfl⟩

/-- C2 (amended): the domain notification method invokes the wrapped sink
with the delivered payload and returns 0 when the sink succeeds; when the
sink returns a failure, the method returns that sink's own failure code —
the program's only sink, the channel-send closure of
src/soundcore/event.rs, fails precisely with the generic aborted code
E_ABORT (when the receiver is gone) — and the method contains no panic
handler, so a panicking sink unwinds across the binary boundary. -/
theorem C2_event_callback_dispatch (sink : EventInfo → SinkResult)
    (e : EventInfo) :
    (sink e = .ok → callback_event_callback true sink e = .ret 0) ∧
    (∀ c : Win32Error, sink e = .err c →
      callback_event_callback true sink e = .ret c.code) ∧
    (sink e = .panics → callback_event_callback true sink e = .panicked) ∧
    eventChannelSink true e = .err ⟨E_ABORT⟩ ∧
    eventChannelSink false e = .ok := by
  refine ⟨?_, ?_, ?_, rfl, rfl⟩ <;>
    first
    | (intro h; simp [callback_event_callback, h])
    | (intro c h; simp [callback_event_callback, h])

/-- C2 witness: the dispatch theorem applied to the channel sink of the
program with the receiver gone, discharging the error-case hypothesis. -/
theorem C2_event_callback_dispatch_witness :
    callback_event_callback true (eventChannelSink true) ⟨2, 1, 1⟩ =
      .ret E_ABORT := by
  exact (C2_event_callback_dispatch (eventChannelSink true) ⟨2, 1, 1⟩).2.1
    ⟨E_ABORT⟩ rfl

/-- C3: on a valid CallbackObject, the identity query increments the count,
writes the object's own address and returns 0 when the requested identity
is IUnknown or ICallback, and writes the null pointer and returns
E_NOINTERFACE for any other identity. -/
theorem C3_query_interface (iid : Guid) (thisAddr : Nat) (o : CallbackObj) :
    ((iid = IID_IUnknown ∨ iid = IID_ICallback) →
      callback_query_interface true thisAddr iid o =
        (0, some thisAddr, { o with refs := o.refs + 1 })) ∧
    (iid ≠ IID_IUnknown → iid ≠ IID_ICallback →
      callback_query_interface true thisAddr iid o =
        (E_NOINTERFACE, some 0, o)) := by
  constructor
  · rintro (h | h) <;> simp [callback_query_interface, IsEqualIID, h]
  · intro h1 h2
    simp [callback_query_interface, IsEqualIID, h1, h2]

/-- C3 witness: querying ICallback on a fresh object at address 5 succeeds
and bumps the count to 2. -/
theorem C3_query_interface_witness :
    callback_query_interface true 5 IID_ICallback ICallback.new =
      (0, some 5, { refs := 2, sinkDropped := 0, freed := false }) := by
  exact (C3_query_interface IID_ICallback 5 ICallback.new).1 (Or.inr rfl)

/-- Helper: over a list-backed driver whose records all carry nonzero ids,
the feature cursor starting at index k yields exactly the items from k on. -/
theorem featureCollect_listEnum (ctx : Nat) (items : List FeatureInfo)
    (h : ∀ i ∈ items, i.feature_id ≠ 0) :
    ∀ fuel k, items.length - k < fuel →
      SoundCoreFeatureIterator.collect (listEnumFeatures items) fuel ⟨ctx, k⟩ =
        (items.drop k).map (fun i => Except.ok (SoundCoreFeature.new ctx i)) := by
  intro fuel
  induction fuel with
  | zero => intro k hk; omega
  | succ fuel ih =>
      intro k hk
      by_cases hlt : k < items.length
      · have hget : items.get? k = some (items.get ⟨k, hlt⟩) := List.get?_eq_get hlt
        have hmem : items.get ⟨k, hlt⟩ ∈ items := List.get?_mem hget
        have hne : (items.get ⟨k, hlt⟩).feature_id ≠ 0 := h _ hmem
        have hdrop : items.drop k = items.get ⟨k, hlt⟩ :: items.drop (k + 1) :=
          List.drop_eq_getElem_cons hlt
        rcases hg : items.get ⟨k, hlt⟩ with ⟨fid, desc, ver⟩
        rw [hg] at hget hdrop hne
        cases fid with
        | zero => exact absurd rfl hne
        | succ m =>
            rw [hdrop, List.map_cons]
            simp only [SoundCoreFeatureIterator.collect,
              SoundCoreFeatureIterator.next, listEnumFeatures, hget, check]
            norm_num
            rw [ih (k + 1) (by omega)]
            exact List.map_drop _ _ _
      · have hge : items.length ≤ k := by omega
        have hget : items.get? k = none := List.get?_eq_none.mpr hge
        have hdrop : items.drop k = [] := List.drop_eq_nil_of_le hge
        rw [hdrop, List.map_nil]
        simp only [SoundCoreFeatureIterator.collect,
          SoundCoreFeatureIterator.next, listEnumFeatures, hget, check]
        norm_num [E_FAIL]

/-- Helper: the parameter-cursor analogue of featureCollect_listEnum. -/
theorem paramCollect_listEnum (ctx f : Nat) (d : List Nat)
    (items : List ParamInfo) (h : ∀ i ∈ items, i.param.feature ≠ 0) :
    ∀ fuel k, items.length - k < fuel →
      SoundCoreParameterIterator.collect (listEnumParams items) fuel ⟨ctx, f, d, k⟩ =
        (items.drop k).map (fun i => Except.ok (SoundCoreParameter.new d i)) := by
  intro fuel
  induction fuel with
  | zero => intro k hk; omega
  | succ fuel ih =>
      intro k hk
      by_cases hlt : k < items.length
      · have hget : items.get? k = some (items.get ⟨k, hlt⟩) := List.get?_eq_get hlt
        have hmem : items.get ⟨k, hlt⟩ ∈ items := List.get?_mem hget
        have hne : (items.get ⟨k, hlt⟩).param.feature ≠ 0 := h _ hmem
        have hdrop : items.drop k = items.get ⟨k, hlt⟩ :: items.drop (k + 1) :=
          List.drop_eq_getElem_cons hlt
        rcases hg : items.get ⟨k, hlt⟩ with ⟨⟨p, pf, pc⟩, pt, ds, mn, mx, st, df, pa, pd⟩
        rw [hg] at hget hdrop hne
        cases pf with
        | zero => exact absurd rfl hne
        | succ m =>
            rw [hdrop, List.map_cons]
            simp only [SoundCoreParameterIterator.collect,
              SoundCoreParameterIterator.next, listEnumParams, hget, check]
            norm_num
            rw [ih (k + 1) (by omega)]
            exact List.map_drop _ _ _
      · have hge : items.length ≤ k := by omega
        have hget : items.get? k = none := List.get?_eq_none.mpr hge
        have hdrop : items.drop k = [] := List.drop_eq_nil_of_le hge
        rw [hdrop, List.map_nil]
        simp only [SoundCoreParameterIterator.collect,
          SoundCoreParameterIterator.next, listEnumParams, hget, check]
        norm_num [E_FAIL]

/-- C4 counterexample: the claim says a non-end failure yields exactly one
error item and then the cursor terminates.  On the code, a driver failing
every probe with E_ACCESSDENIED makes the cursor yield an error item and
leave its index at 0, so consuming two steps yields two error items: the
cursor is not terminated by a non-end failure. -/
theorem C4_cursor_counterexample :
    SoundCoreFeatureIterator.collect failingEnumFeatures 2 ⟨0, 0⟩ =
      [Except.error ⟨E_ACCESSDENIED⟩, Except.error ⟨E_ACCESSDENIED⟩] ∧
    SoundCoreFeatureIterator.next failingEnumFeatures ⟨0, 0⟩ =
      (some (Except.error ⟨E_ACCESSDENIED⟩), ⟨0, 0⟩) := by
  exact ⟨rfl, rfl⟩

/-- C4 (amended): for both enumeration cursors, a successful probe with a
nonzero id yields that item and increments the index by exactly 1; the
E_FAIL end code terminates the sequence normally with no error item, so a
driver returning N items followed by the end status yields exactly those N
items and then terminates; and any other failure code yields an error item
for that probe while leaving the index unchanged — the cursor is not
terminated by the error, a further next() re-probing the same index (and,
with the same deterministic driver, yielding the same error again). -/
theorem C4_cursor_enumeration
    (enumF : EnumFeatures) (itF : SoundCoreFeatureIterator)
    (enumP : EnumParams) (itP : SoundCoreParameterIterator)
    (ctx f : Nat) (d : List Nat)
    (items : List FeatureInfo) (pitems : List ParamInfo) (fuel : Nat) :
    (0 ≤ (enumF itF.context itF.index).1 →
      (enumF itF.context itF.index).2.feature_id ≠ 0 →
      SoundCoreFeatureIterator.next enumF itF =
        (some (.ok (SoundCoreFeature.new itF.context (enumF itF.context itF.index).2)),
         { itF with index := itF.index + 1 })) ∧
    (0 ≤ (enumP itP.context itP.index itP.feature_id).1 →
      (enumP itP.context itP.index itP.feature_id).2.param.feature ≠ 0 →
      SoundCoreParameterIterator.next enumP itP =
        (some (.ok (SoundCoreParameter.new itP.feature_description
            (enumP itP.context itP.index itP.feature_id).2)),
         { itP with index := itP.index + 1 })) ∧
    ((enumF itF.context itF.index).1 = E_FAIL →
      SoundCoreFeatureIterator.next enumF itF = (Option.none, itF)) ∧
    ((enumP itP.context itP.index itP.feature_id).1 = E_FAIL →
      SoundCoreParameterIterator.next enumP itP = (Option.none, itP)) ∧
    ((∀ i ∈ items, i.feature_id ≠ 0) → items.length < fuel →
      SoundCoreFeatureIterator.collect (listEnumFeatures items) fuel ⟨ctx, 0⟩ =
        items.map (fun i => Except.ok (SoundCoreFeature.new ctx i))) ∧
    ((∀ i ∈ pitems, i.param.feature ≠ 0) → pitems.length < fuel →
      SoundCoreParameterIterator.collect (listEnumParams pitems) fuel ⟨ctx, f, d, 0⟩ =
        pitems.map (fun i => Except.ok (SoundCoreParameter.new d i))) ∧
    ((enumF itF.context itF.index).1 < 0 →
      (enumF itF.context itF.index).1 ≠ E_FAIL →
      SoundCoreFeatureIterator.next enumF itF =
        (some (.error ⟨(enumF itF.context itF.index).1⟩), itF)) ∧
    ((enumP itP.context itP.index itP.feature_id).1 < 0 →
      (enumP itP.context itP.index itP.feature_id).1 ≠ E_FAIL →
      SoundCoreParameterIterator.next enumP itP =
        (some (.error ⟨(enumP itP.context itP.index itP.feature_id).1⟩), itP)) := by
  refine ⟨?_, ?_, ?_, ?_, ?_, ?_, ?_, ?_⟩
  · intro h1 h2
    have hnlt : ¬ ((enumF itF.context itF.index).1 < 0) := by omega
    cases hfid : (enumF itF.context itF.index).2.feature_id with
    | zero => exact absurd hfid h2
    | succ m =>
        simp only [SoundCoreFeatureIterator.next, check, hnlt, if_false, hfid]
  · intro h1 h2
    have hnlt : ¬ ((enumP itP.context itP.index itP.feature_id).1 < 0) := by omega
    cases hfid : (enumP itP.context itP.index itP.feature_id).2.param.feature with
    | zero => exact absurd hfid h2
    | succ m =>
        simp only [SoundCoreParameterIterator.next, check, hnlt, if_false, hfid]
  · intro h1
    have hlt : (enumF itF.context itF.index).1 < 0 := by rw [h1]; decide
    simp only [SoundCoreFeatureIterator.next, check, hlt, if_true, h1]
    norm_num [E_FAIL]
  · intro h1
    have hlt : (enumP itP.context itP.index itP.feature_id).1 < 0 := by rw [h1]; decide
    simp only [SoundCoreParameterIterator.next, check, hlt, if_true, h1]
    norm_num [E_FAIL]
  · intro hids hfuel
    have := featureCollect_listEnum ctx items hids fuel 0 (by omega)
    simpa using this
  · intro hids hfuel
    have := paramCollect_listEnum ctx f d pitems hids fuel 0 (by omega)
    simpa using this
  · intro h1 h2
    simp only [SoundCoreFeatureIterator.next, check, h1, if_true, h2, if_false]
  · intro h1 h2
    simp only [SoundCoreParameterIterator.next, check, h1, if_true, h2, if_false]

/-- C4 witness: a one-item driver followed by the end status yields exactly
that item. -/
theorem C4_cursor_enumeration_witness :
    SoundCoreFeatureIterator.collect (listEnumFeatures [sampleFeatureInfo]) 2 ⟨0, 0⟩ =
      [Except.ok (SoundCoreFeature.new 0 sampleFeatureInfo)] := by
  exact (C4_cursor_enumeration (listEnumFeatures [sampleFeatureInfo]) ⟨0, 0⟩
      (listEnumParams []) ⟨0, 1, [], 0⟩ 0 1 [] [sampleFeatureInfo] [] 2).2.2.2.2.1
    (by decide) (by decide)

/-- C10: on both enumeration cursors, a probe failing with a non-end code
leaves the index field unchanged — only a successful probe increments it —
so a further next() call re-probes the same index instead of being a
terminal no-op, and with the same deterministic driver it yields the same
error again. -/
theorem C10_error_reprobes_same_index
    (enumF : EnumFeatures) (itF : SoundCoreFeatureIterator)
    (enumP : EnumParams) (itP : SoundCoreParameterIterator) :
    ((enumF itF.context itF.index).1 < 0 →
      (enumF itF.context itF.index).1 ≠ E_FAIL →
      SoundCoreFeatureIterator.next enumF itF =
        (some (.error ⟨(enumF itF.context itF.index).1⟩), itF) ∧
      SoundCoreFeatureIterator.next enumF
          (SoundCoreFeatureIterator.next enumF itF).2 =
        (some (.error ⟨(enumF itF.context itF.index).1⟩), itF)) ∧
    ((enumP itP.context itP.index itP.feature_id).1 < 0 →
      (enumP itP.context itP.index itP.feature_id).1 ≠ E_FAIL →
      SoundCoreParameterIterator.next enumP itP =
        (some (.error ⟨(enumP itP.context itP.index itP.feature_id).1⟩), itP) ∧
      SoundCoreParameterIterator.next enumP
          (SoundCoreParameterIterator.next enumP itP).2 =
        (some (.error ⟨(enumP itP.context itP.index itP.feature_id).1⟩), itP)) := by
  constructor
  · intro h1 h2
    have hstep : SoundCoreFeatureIterator.next enumF itF =
        (some (.error ⟨(enumF itF.context itF.index).1⟩), itF) := by
      simp only [SoundCoreFeatureIterator.next, check, h1, if_true, h2, if_false]
    refine ⟨hstep, ?_⟩
    rw [hstep]
    exact hstep
  · intro h1 h2
    have hstep : SoundCoreParameterIterator.next enumP itP =
        (some (.error ⟨(enumP itP.context itP.index itP.feature_id).1⟩), itP) := by
      simp only [SoundCoreParameterIterator.next, check, h1, if_true, h2, if_false]
    refine ⟨hstep, ?_⟩
    rw [hstep]
    exact hstep

/-- C10 witness: the always-denied driver produces the same error at index
0 on two consecutive next() calls of the feature cursor. -/
theorem C10_error_reprobes_same_index_witness :
    SoundCoreFeatureIterator.next failingEnumFeatures ⟨0, 0⟩ =
      (some (.error ⟨E_ACCESSDENIED⟩), (⟨0, 0⟩ : SoundCoreFeatureIterator)) ∧
    SoundCoreFeatureIterator.next failingEnumFeatures
        (SoundCoreFeatureIterator.next failingEnumFeatures ⟨0, 0⟩).2 =
      (some (.error ⟨E_ACCESSDENIED⟩), (⟨0, 0⟩ : SoundCoreFeatureIterator)) := by
  exact (C10_error_reprobes_same_index failingEnumFeatures ⟨0, 0⟩
      failingEnumParams ⟨0, 1, [], 0⟩).1 (by decide) (by decide)

/-- C5: polling on a delivered record with event code 2 re-queries the
feature (GetFeatureInfo, context 0) and then the parameter (GetParamInfo
for that feature/param pair) and yields a ParamChange carrying the freshly
re-queried records; any other event code is yielded verbatim as Unknown; a
failure of either re-query is surfaced as the error for that single item
while the queue still advances, so a subsequent poll yields later items. -/
theorem C5_poll_classification (getFeatureInfo : GetFeatureInfo)
    (getParamInfo : GetParamInfo) (s : SoundCoreEventsState)
    (e e' : EventInfo) (rest rest' : List EventInfo)
    (hq : s.queue = e :: rest) :
    (e.event ≠ 2 →
      SoundCoreEvents.poll getFeatureInfo getParamInfo s =
        (.ok (.ready (some (.unknown e))), { s with queue := rest })) ∧
    (e.event = 2 →
      0 ≤ (getFeatureInfo 0 e.data_or_feature_id).1 →
      0 ≤ (getParamInfo ⟨e.param_id, e.data_or_feature_id, 0⟩).1 →
      SoundCoreEvents.poll getFeatureInfo getParamInfo s =
        (.ok (.ready (some (.paramChange
            (SoundCoreFeature.new 0 (getFeatureInfo 0 e.data_or_feature_id).2)
            (SoundCoreParameter.new
              (SoundCoreFeature.new 0 (getFeatureInfo 0 e.data_or_feature_id).2).description
              (getParamInfo ⟨e.param_id, e.data_or_feature_id, 0⟩).2)))),
         { s with queue := rest })) ∧
    (e.event = 2 →
      (getFeatureInfo 0 e.data_or_feature_id).1 < 0 →
      SoundCoreEvents.poll getFeatureInfo getParamInfo s =
        (.error ⟨(getFeatureInfo 0 e.data_or_feature_id).1⟩,
         { s with queue := rest })) ∧
    (e.event = 2 →
      0 ≤ (getFeatureInfo 0 e.data_or_feature_id).1 →
      (getParamInfo ⟨e.param_id, e.data_or_feature_id, 0⟩).1 < 0 →
      SoundCoreEvents.poll getFeatureInfo getParamInfo s =
        (.error ⟨(getParamInfo ⟨e.param_id, e.data_or_feature_id, 0⟩).1⟩,
         { s with queue := rest })) ∧
    (rest = e' :: rest' → e'.event ≠ 2 →
      SoundCoreEvents.poll getFeatureInfo getParamInfo { s with queue := rest } =
        (.ok (.ready (some (.unknown e'))), { s with queue := rest' })) := by
  refine ⟨?_, ?_, ?_, ?_, ?_⟩
  · intro h2
    simp [SoundCoreEvents.poll, hq, h2]
  · intro h2 hf hp
    have hnf : ¬ ((getFeatureInfo 0 e.data_or_feature_id).1 < 0) := by omega
    have hnp : ¬ ((getParamInfo ⟨e.param_id, e.data_or_feature_id, 0⟩).1 < 0) := by
      omega
    simp [SoundCoreEvents.poll, hq, h2, check, hnf, hnp]
  · intro h2 hf
    simp [SoundCoreEvents.poll, hq, h2, check, hf]
  · intro h2 hf hp
    have hnf : ¬ ((getFeatureInfo 0 e.data_or_feature_id).1 < 0) := by omega
    simp [SoundCoreEvents.poll, hq, h2, check, hnf, hp]
  · intro hq' h2
    simp [SoundCoreEvents.poll, hq', h2]

/-- C5 witness: a code-2 delivery whose feature re-query is denied
surfaces that error and consumes only that item; the following unknown
delivery is still yielded by the next poll. -/
theorem C5_poll_classification_witness :
    SoundCoreEvents.poll (fun _ _ => (E_ACCESSDENIED, FeatureInfo.zeroed))
        (fun _ => (0, ParamInfo.zeroed)) ⟨[⟨2, 1, 1⟩, ⟨9, 0, 0⟩], false⟩ =
      (.error ⟨E_ACCESSDENIED⟩, ⟨[⟨9, 0, 0⟩], false⟩) ∧
    SoundCoreEvents.poll (fun _ _ => (E_ACCESSDENIED, FeatureInfo.zeroed))
        (fun _ => (0, ParamInfo.zeroed)) ⟨[⟨9, 0, 0⟩], false⟩ =
      (.ok (.ready (some (.unknown ⟨9, 0, 0⟩))), ⟨[], false⟩) := by
  have h := C5_poll_classification (fun _ _ => (E_ACCESSDENIED, FeatureInfo.zeroed))
    (fun _ => (0, ParamInfo.zeroed)) ⟨[⟨2, 1, 1⟩, ⟨9, 0, 0⟩], false⟩
    ⟨2, 1, 1⟩ ⟨9, 0, 0⟩ [⟨9, 0, 0⟩] [] rfl
  exact ⟨h.2.2.1 rfl (by decide), h.2.2.2.2 rfl (by decide)⟩

/-- C6: for every finite sequence of clone and drop operations on handles
of one underlying object whose count starts positive and stays positive
through every proper prefix, the final count is the initial count plus
clones minus drops (each clone one AddRef, each drop one Release), and the
object finalizes exactly once, precisely when the count reaches zero. -/
theorem C6_clone_release_net (ops : List ComObjectOp) (r0 f0 : Nat)
    (hpos : 0 < r0)
    (hlive : ∀ n, n < ops.length →
      ComObject.drops (ops.take n) < r0 + ComObject.clones (ops.take n)) :
    (ComObject.applyOps ops ⟨r0, f0⟩).refs =
      r0 + ComObject.clones ops - ComObject.drops ops ∧
    (ComObject.applyOps ops ⟨r0, f0⟩).finalized =
      f0 + (if r0 + ComObject.clones ops = ComObject.drops ops then 1 else 0) := by
  induction ops generalizing r0 f0 with
  | nil =>
      constructor
      · simp [ComObject.applyOps, ComObject.clones, ComObject.drops]
      · have hne : ¬ (r0 + ComObject.clones [] = ComObject.drops []) := by
          simp [ComObject.clones, ComObject.drops]; omega
        simp [ComObject.applyOps, hne]
  | cons op rest ih =>
      cases op with
      | clone =>
          have hstep : ComObject.applyOps (.clone :: rest) ⟨r0, f0⟩ =
              ComObject.applyOps rest ⟨r0 + 1, f0⟩ := by
            simp [ComObject.applyOps, ComObject.applyOp, ComTarget.addRef]
          have hlive' : ∀ n, n < rest.length →
              ComObject.drops (rest.take n) < (r0 + 1) + ComObject.clones (rest.take n) := by
            intro n hn
            have hh := hlive (n + 1) (by simp; omega)
            rw [List.take_succ_cons] at hh
            simp [ComObject.clones, ComObject.drops] at hh
            omega
          have h := ih (r0 + 1) f0 (by omega) hlive'
          rw [hstep]
          refine ⟨?_, ?_⟩
          · rw [h.1]
            simp [ComObject.clones, ComObject.drops]
            omega
          · rw [h.2]
            have hiff : ((r0 + 1) + ComObject.clones rest = ComObject.drops rest) ↔
                (r0 + ComObject.clones (ComObjectOp.clone :: rest) =
                  ComObject.drops (.clone :: rest)) := by
              simp [ComObject.clones, ComObject.drops]; omega
            by_cases hcase : (r0 + 1) + ComObject.clones rest = ComObject.drops rest
            · rw [if_pos hcase, if_pos (hiff.mp hcase)]
            · rw [if_neg hcase, if_neg (fun hx => hcase (hiff.mpr hx))]
      | drop =>
          by_cases hone : r0 = 1
          · subst hone
            cases rest with
            | nil =>
                constructor
                · simp [ComObject.applyOps, ComObject.applyOp, ComTarget.release,
                    ComObject.clones, ComObject.drops]
                · simp [ComObject.applyOps, ComObject.applyOp, ComTarget.release,
                    ComObject.clones, ComObject.drops]
            | cons op2 rest' =>
                exfalso
                have := hlive 1 (by simp)
                simp [ComObject.clones, ComObject.drops, List.take_succ_cons] at this
          · have hge : 2 ≤ r0 := by omega
            have hstep : ComObject.applyOps (.drop :: rest) ⟨r0, f0⟩ =
                ComObject.applyOps rest ⟨r0 - 1, f0⟩ := by
              have hne : ¬ (r0 - 1 = 0) := by omega
              simp [ComObject.applyOps, ComObject.applyOp, ComTarget.release, hne]
            have hlive' : ∀ n, n < rest.length →
                ComObject.drops (rest.take n) < (r0 - 1) + ComObject.clones (rest.take n) := by
              intro n hn
              have := hlive (n + 1) (by simpa using Nat.succ_lt_succ hn)
              simp [List.take_succ_cons, ComObject.clones, ComObject.drops] at this
              omega
            have h := ih (r0 - 1) f0 (by omega) hlive'
            rw [hstep]
            refine ⟨?_, ?_⟩
            · rw [h.1]
              simp [ComObject.clones, ComObject.drops]
              omega
            · rw [h.2]
              have hiff : ((r0 - 1) + ComObject.clones rest = ComObject.drops rest) ↔
                  (r0 + ComObject.clones (ComObjectOp.drop :: rest) =
                    ComObject.drops (.drop :: rest)) := by
                simp [ComObject.clones, ComObject.drops]; omega
              by_cases hcase : (r0 - 1) + ComObject.clones rest = ComObject.drops rest
              · rw [if_pos hcase, if_pos (hiff.mp hcase)]
              · rw [if_neg hcase, if_neg (fun hx => hcase (hiff.mpr hx))]

/-- C6 witness: one clone and two drops on a fresh handle (count 1) leave
the count at zero and finalize the object exactly once. -/
theorem C6_clone_release_net_witness :
    (ComObject.applyOps [.clone, .drop, .drop] ⟨1, 0⟩).refs = 0 ∧
    (ComObject.applyOps [.clone, .drop, .drop] ⟨1, 0⟩).finalized = 1 := by
  have h := C6_clone_release_net [.clone, .drop, .drop] 1 0 (by decide)
    (by decide)
  exact ⟨h.1.trans (by decide), h.2.trans (by decide)⟩

/-- C7: get() on a variable-size parameter (kind 5) answers None without
any GetParamValue call; on other kinds it makes exactly one GetParamValue
call, maps E_ACCESSDENIED to None rather than an error, surfaces any other
failure as the error, and decodes a successful read. -/
theorem C7_parameter_get (getParamValue : GetParamValue)
    (p : SoundCoreParameter) :
    (p.kind = 5 →
      SoundCoreParameter.get getParamValue p = (.ok .none, [])) ∧
    (p.kind ≠ 5 →
      ((getParamValue ⟨p.id, p.feature_id, p.context⟩).1 = E_ACCESSDENIED →
        SoundCoreParameter.get getParamValue p =
          (.ok .none, [⟨p.id, p.feature_id, p.context⟩])) ∧
      ((getParamValue ⟨p.id, p.feature_id, p.context⟩).1 < 0 →
        (getParamValue ⟨p.id, p.feature_id, p.context⟩).1 ≠ E_ACCESSDENIED →
        SoundCoreParameter.get getParamValue p =
          (.error ⟨(getParamValue ⟨p.id, p.feature_id, p.context⟩).1⟩,
           [⟨p.id, p.feature_id, p.context⟩])) ∧
      (0 ≤ (getParamValue ⟨p.id, p.feature_id, p.context⟩).1 →
        SoundCoreParameter.get getParamValue p =
          (.ok (convert_param_value (getParamValue ⟨p.id, p.feature_id, p.context⟩).2),
           [⟨p.id, p.feature_id, p.context⟩]))) := by
  refine ⟨?_, ?_⟩
  · intro h5
    simp [SoundCoreParameter.get, h5]
  · intro h5
    refine ⟨?_, ?_, ?_⟩
    · intro had
      have hlt : (getParamValue ⟨p.id, p.feature_id, p.context⟩).1 < 0 := by
        rw [had]; decide
      simp [SoundCoreParameter.get, h5, check, hlt, had, E_ACCESSDENIED]
    · intro hlt hne
      simp [SoundCoreParameter.get, h5, check, hlt, hne]
    · intro hge
      have hnlt : ¬ ((getParamValue ⟨p.id, p.feature_id, p.context⟩).1 < 0) := by
        omega
      simp [SoundCoreParameter.get, h5, check, hnlt]

/-- C7 witness: a kind-5 parameter returns None with an empty driver call
list even when the driver would succeed. -/
theorem C7_parameter_get_witness :
    SoundCoreParameter.get (fun _ => (0, ⟨2, 42⟩))
        (SoundCoreParameter.new [] { sampleParamInfo with param_type := 5 }) =
      (.ok .none, []) := by
  exact (C7_parameter_get (fun _ => (0, ⟨2, 42⟩))
    (SoundCoreParameter.new [] { sampleParamInfo with param_type := 5 })).1 rfl

/-- C8: encoding a Float, Bool, U32 or I32 value to the tag+payload wire
form built by set() (tags 0/1/2/3) and decoding it back with
convert_param_value yields the original value, for payloads in the u32 and
i32 ranges (the float payload being its 32-bit pattern). -/
theorem C8_wire_roundtrip (bits u : Nat) (b : Bool) (i : Int)
    (_hbits : bits < 2 ^ 32) (_hu : u < 2 ^ 32)
    (hlo : -(2 ^ 31) ≤ i) (hhi : i < 2 ^ 31) :
    (setParamValueWire (.float bits)).map convert_param_value =
      some (.float bits) ∧
    (setParamValueWire (.bool b)).map convert_param_value =
      some (.bool b) ∧
    (setParamValueWire (.u32 u)).map convert_param_value =
      some (.u32 u) ∧
    (setParamValueWire (.i32 i)).map convert_param_value =
      some (.i32 i) := by
  refine ⟨?_, ?_, ?_, ?_⟩
  · simp [setParamValueWire, convert_param_value]
  · cases b <;> simp [setParamValueWire, convert_param_value]
  · simp [setParamValueWire, convert_param_value]
  · simp only [setParamValueWire, Option.map_some', convert_param_value]
    have h0 : (0 : Int) ≤ i % 2 ^ 32 := Int.emod_nonneg _ (by norm_num)
    have h1 : i % 2 ^ 32 < 2 ^ 32 := Int.emod_lt_of_pos _ (by norm_num)
    by_cases hcase : (i % 2 ^ 32).toNat < 2 ^ 31
    · rw [if_pos hcase]
      simp only [Option.some.injEq, SoundCoreParamValue.i32.injEq]
      omega
    · rw [if_neg hcase]
      simp only [Option.some.injEq, SoundCoreParamValue.i32.injEq]
      omega

/-- C8 witness: the round trip at bit pattern 0x40490fdb, true, 7 and -5. -/
theorem C8_wire_roundtrip_witness :
    (setParamValueWire (.float 0x40490fdb)).map convert_param_value =
      some (.float 0x40490fdb) ∧
    (setParamValueWire (.bool true)).map convert_param_value =
      some (.bool true) ∧
    (setParamValueWire (.u32 7)).map convert_param_value =
      some (.u32 7) ∧
    (setParamValueWire (.i32 (-5))).map convert_param_value =
      some (.i32 (-5)) := by
  exact C8_wire_roundtrip 0x40490fdb 7 true (-5) (by norm_num) (by norm_num)
    (by norm_num) (by norm_num)

/-- C9: over a full bridge lifetime the UnregisterEventCallback call is
issued exactly once, at disposal, regardless of how many polls happened in
between, and it is issued only when the RegisterEventCallback of
SoundCoreEvents::new succeeded — a failed registration yields Err before
any bridge value exists, so nothing is ever unregistered. -/
theorem C9_unregister_exactly_once (registerHr : Int) (polls : Nat) :
    (registerHr < 0 →
      (SoundCoreEvents.new registerHr).1 = .error ⟨registerHr⟩ ∧
      (SoundCoreEvents.lifetimeNotifyCalls registerHr polls).count
        .unregisterEventCallback = 0) ∧
    (0 ≤ registerHr →
      (SoundCoreEvents.new registerHr).1 = .ok () ∧
      (SoundCoreEvents.lifetimeNotifyCalls registerHr polls).count
        .unregisterEventCallback = 1) := by
  have hjoin : (List.replicate polls SoundCoreEvents.pollNotifyCalls).flatten =
      ([] : List NotifyCall) := by
    induction polls with
    | zero => simp
    | succ n ih => simp [List.replicate, SoundCoreEvents.pollNotifyCalls, ih]
  constructor
  · intro hlt
    constructor
    · simp [SoundCoreEvents.new, check, hlt]
    · simp [SoundCoreEvents.lifetimeNotifyCalls, SoundCoreEvents.new, check, hlt]
  · intro hge
    have hnlt : ¬ (registerHr < 0) := by omega
    constructor
    · simp [SoundCoreEvents.new, check, hnlt]
    · simp [SoundCoreEvents.lifetimeNotifyCalls, SoundCoreEvents.new, check, hnlt,
        hjoin, SoundCoreEvents.dropNotifyCalls]

/-- C9 witness: a successful registration followed by three polls and
disposal unregisters exactly once; a failed registration never does. -/
theorem C9_unregister_exactly_once_witness :
    (SoundCoreEvents.lifetimeNotifyCalls 0 3).count .unregisterEventCallback = 1 ∧
    (SoundCoreEvents.lifetimeNotifyCalls E_FAIL 3).count
      .unregisterEventCallback = 0 := by
  exact ⟨((C9_unregister_exactly_once 0 3).2 (by decide)).2,
    ((C9_unregister_exactly_once E_FAIL 3).1 (by decide)).2⟩

end SbzSwitch
